import Mathlib

/-!
Verification of the data pipeline of app_snowflake.py from the
Pharma-Sales-Dashboard repository.  The pipeline loads four wide sales tables,
melts the selected one into long form, filters a single product column, and
aggregates the long records by product and by year.  The definitions below are
a shallow embedding of those operations, following the pandas semantics of the
library calls the script makes.
-/

/-- Cell value of a tabular result: either a text cell (dates, product codes)
or a numeric cell (sales amounts). -/
inductive Val where
  | str : String → Val
  | num : Int → Val
deriving DecidableEq

instance : Inhabited Val := ⟨Val.num 0⟩

/-- Numeric reading of a cell, used when summing a SALES column. -/
def valToInt : Val → Int
  | Val.num n => n
  | Val.str _ => 0

/-- Whether a cell is numeric. -/
def Val.isNum : Val → Bool
  | Val.num _ => true
  | Val.str _ => false

/-- Tabular result (a pandas DataFrame): named columns and rows of cells, each
row listing its cells in column order.  The tables the script loads have
uniquely named columns, and all operations below are used on such tables. -/
structure DataFrame where
  cols : List String
  rows : List (List Val)
deriving DecidableEq

/-- Frame returned by pd.DataFrame() with no arguments (line 29). -/
def DataFrame.emptyFrame : DataFrame := ⟨[], []⟩

/-- Wellformedness of a frame: every row has one cell per column. -/
abbrev DataFrame.Wf (df : DataFrame) : Prop :=
  ∀ r ∈ df.rows, r.length = df.cols.length

/-- Cell of row r in the column named c: the entry at the position of c in the
column list, and the default cell when the column is absent (a case the callers
below always rule out first). -/
def getCell (cols : List String) (r : List Val) (c : String) : Val :=
  r.getD (List.indexOf c cols) default

/-- Identifier key of a row: its cells in the listed key columns. -/
def keyOfRow (cols keyCols : List String) (r : List Val) : List Val :=
  keyCols.map (getCell cols r)

/-- Keep the first occurrence of each element, dropping the ones already seen.
This is the order kept by the unique position selection inside pandas melt and
by pandas groupby before it sorts the group keys. -/
def dedupFirstAux {α : Type} [DecidableEq α] (seen : List α) : List α → List α
  | [] => []
  | a :: l =>
    if a ∈ seen then dedupFirstAux seen l else a :: dedupFirstAux (a :: seen) l

/-- First occurrence deduplication of a list. -/
def dedupFirst {α : Type} [DecidableEq α] (l : List α) : List α :=
  dedupFirstAux [] l

/-- Errors the pipeline can raise: the KeyError raised by melt_data itself, the
KeyError and ValueError raised inside pandas melt, the KeyError raised by
column projection or dictionary lookup, and the TypeError raised by
str.replace when its pattern argument is the None of an empty selectbox. -/
inductive PipelineError where
  | missingIdVars (cols : List String)
  | missingValueVars (cols : List String)
  | valueNameConflict (name : String)
  | keyNotInIndex (cols : List String)
  | typeErrorNotStr
deriving DecidableEq

/-- Effective value columns of pandas melt: melt selects the unique column
positions of id_vars ++ value_vars and then pops the id_vars off, so a column
listed both as identifier and as value is used as identifier only. -/
def effectiveValueVars (id_vars value_vars : List String) : List String :=
  (dedupFirst (id_vars ++ value_vars)).filter (fun c => decide (c ∉ id_vars))

/-- pandas DataFrame.melt with var_name and value_name: fails when value_name
is already a column; fails listing the id_vars or value_vars absent from the
frame; otherwise emits, for each effective value column v in order and then for
each row, one record of the id cells followed by the column name v and the cell
of v in that row. -/
def pandasMelt (df : DataFrame) (id_vars value_vars : List String)
    (var_name value_name : String) : Except PipelineError DataFrame :=
  if value_name ∈ df.cols then
    Except.error (PipelineError.valueNameConflict value_name)
  else
    let missing_id := id_vars.filter (fun v => decide (v ∉ df.cols))
    if missing_id = [] then
      let missing_val := value_vars.filter (fun v => decide (v ∉ df.cols))
      if missing_val = [] then
        let vvars := effectiveValueVars id_vars value_vars
        Except.ok
          { cols := id_vars ++ [var_name, value_name]
            rows := (vvars.map (fun v => df.rows.map (fun r =>
                      id_vars.map (getCell df.cols r) ++
                        [Val.str v, getCell df.cols r v]))).flatten }
      else Except.error (PipelineError.missingValueVars missing_val)
    else Except.error (PipelineError.missingIdVars missing_id)

/-- melt_data (lines 36 to 42): first checks itself that every id_vars name is
a column, raising a KeyError listing the missing ones, and only then calls
df.melt with var_name PRODUCT and value_name SALES. -/
def melt_data (df : DataFrame) (id_vars value_vars : List String) :
    Except PipelineError DataFrame :=
  let missing_id_vars := id_vars.filter (fun v => decide (v ∉ df.cols))
  if missing_id_vars = [] then pandasMelt df id_vars value_vars "PRODUCT" "SALES"
  else Except.error (PipelineError.missingIdVars missing_id_vars)

/-- Code point comparison of character lists, the ordering Python uses on
strings. -/
def charListLe : List Char → List Char → Bool
  | [], _ => true
  | _ :: _, [] => false
  | a :: l, b :: m =>
    if a.toNat < b.toNat then true
    else if b.toNat < a.toNat then false
    else charListLe l m

/-- Code point comparison of strings. -/
def stringLe (a b : String) : Bool := charListLe a.data b.data

/-- Insert a string into a sorted list, keeping it sorted. -/
def insertSorted (a : String) : List String → List String
  | [] => [a]
  | b :: l => if stringLe a b then a :: b :: l else b :: insertSorted a l

/-- Insertion sort of a list of strings. -/
def sortStrings : List String → List String
  | [] => []
  | a :: l => insertSorted a (sortStrings l)

/-- pandas Index.difference: the elements of the index that are not in the
other list, deduplicated and sorted. -/
def indexDifference (cols other : List String) : List String :=
  sortStrings ((cols.filter (fun c => decide (c ∉ other))).dedup)

/-- Metadata column names subtracted on lines 109, 114, 119 and 124.  DATUM is
not part of this list. -/
def metadataCols : List String := ["YEAR", "MONTH", "HOUR", "WEEKDAY_NAME"]

/-- value_vars as computed in every granularity branch (lines 109, 114, 119,
124): the columns of the selected table minus the metadata columns. -/
def value_vars (cols : List String) : List String :=
  indexDifference cols metadataCols

/-- id_vars per selected option string (lines 106 to 125); any string other
than Daily, Hourly and Weekly takes the else branch of the chain, which is the
Monthly one. -/
def id_vars (option : String) : List String :=
  if option = "Daily" then ["DATUM"]
  else if option = "Hourly" then ["DATUM", "HOUR"]
  else if option = "Weekly" then ["DATUM"]
  else ["DATUM"]

/-- The four tables loaded at lines 51 to 54. -/
structure LoadedTables where
  sales_daily : DataFrame
  sales_hourly : DataFrame
  sales_weekly : DataFrame
  sales_monthly : DataFrame
deriving DecidableEq

/-- Table picked by the option branches (lines 106 to 125 and 128 to 135). -/
def selectedTable (t : LoadedTables) (option : String) : DataFrame :=
  if option = "Daily" then t.sales_daily
  else if option = "Hourly" then t.sales_hourly
  else if option = "Weekly" then t.sales_weekly
  else t.sales_monthly

/-- sales_data as computed by the branch of the selected option (lines 106 to
125): melt the selected table over its id_vars and computed value_vars. -/
def sales_data (t : LoadedTables) (option : String) :
    Except PipelineError DataFrame :=
  melt_data (selectedTable t option) (id_vars option)
    (value_vars (selectedTable t option).cols)

/-- pandas column projection df[cs]: raises a KeyError listing the labels not
in the index, otherwise keeps the listed columns in the listed order. -/
def selectColumns (df : DataFrame) (cs : List String) :
    Except PipelineError DataFrame :=
  let missing := cs.filter (fun c => decide (c ∉ df.cols))
  if missing = [] then
    Except.ok { cols := cs, rows := df.rows.map (fun r => cs.map (getCell df.cols r)) }
  else Except.error (PipelineError.keyNotInIndex missing)

/-- pandas df.rename with columns mapping one old name to a new one: every
column bearing the old name is renamed, values untouched. -/
def renameColumn (df : DataFrame) (old new : String) : DataFrame :=
  { cols := df.cols.map (fun c => if c = old then new else c), rows := df.rows }

/-- filtered_data (lines 128 to 135): project the identifier columns of the
selected granularity plus the chosen product column out of the selected table,
renaming the product column to SALES. -/
def filtered_data (t : LoadedTables) (option product : String) :
    Except PipelineError DataFrame :=
  (selectColumns (selectedTable t option) (id_vars option ++ [product])).map
    (fun df => renameColumn df product "SALES")

/-- Sum of the SALES column over the group of records with identifier key k. -/
def groupSalesSum (L : DataFrame) (keyCols : List String) (k : List Val) : Int :=
  ((L.rows.filter (fun q => decide (keyOfRow L.cols keyCols q = k))).map
    (fun q => valToInt (getCell L.cols q "SALES"))).sum

/-- Sum of the listed value columns of one wide row. -/
def rowValueSum (cols V : List String) (r : List Val) : Int :=
  (V.map (fun v => valToInt (getCell cols r v))).sum

/-- Sum of the SALES column over the records whose PRODUCT cell is p. -/
def productSalesSum (df : DataFrame) (p : Val) : Int :=
  ((df.rows.filter (fun r => decide (getCell df.cols r "PRODUCT" = p))).map
    (fun r => valToInt (getCell df.cols r "SALES"))).sum

/-- pandas groupby(key).agg sum over one value column followed by reset_index
(line 176): one output row per distinct key value carrying the sum of the
value column over its group.  Group keys are listed in first occurrence order;
pandas sorts them, and no property below depends on that order. -/
def groupbySingleSum (df : DataFrame) (key val : String) : DataFrame :=
  let keys := dedupFirst (df.rows.map (fun r => getCell df.cols r key))
  { cols := [key, val]
    rows := keys.map (fun k =>
      [k, Val.num (((df.rows.filter (fun r => decide (getCell df.cols r key = k))).map
            (fun r => valToInt (getCell df.cols r val))).sum)]) }

/-- sales_data_comparative (line 176): group the long records by PRODUCT and
sum SALES. -/
def sales_data_comparative (df : DataFrame) : DataFrame :=
  groupbySingleSum df "PRODUCT" "SALES"

/-- pandas groupby over a list of key columns with a summed value column and
reset_index (line 193). -/
def groupbyKeysSum (df : DataFrame) (keys : List String) (val : String) :
    DataFrame :=
  let ks := dedupFirst (df.rows.map (keyOfRow df.cols keys))
  { cols := keys ++ [val]
    rows := ks.map (fun k =>
      k ++ [Val.num (((df.rows.filter (fun r => decide (keyOfRow df.cols keys r = k))).map
              (fun r => valToInt (getCell df.cols r val))).sum)]) }

/-- pandas column assignment df[name] = series computed per row: replaces the
column in place when the name is already present, otherwise appends the new
column on the right. -/
def assignColumn (df : DataFrame) (name : String) (f : List Val → Val) : DataFrame :=
  if name ∈ df.cols then
    { cols := df.cols
      rows := df.rows.map (fun r => r.set (List.indexOf name df.cols) (f r)) }
  else
    { cols := df.cols ++ [name], rows := df.rows.map (fun r => r ++ [f r]) }

/-- Line 192: sales_data[YEAR] = to_datetime(sales_data[DATUM]).dt.year, an in
place mutation of the long table; the year extraction itself is abstracted as
a function on the DATUM cell. -/
def yearAssigned (year : Val → Val) (df : DataFrame) : DataFrame :=
  assignColumn df "YEAR" (fun r => year (getCell df.cols r "DATUM"))

/-- sales_annual (line 193): group the mutated long table by YEAR and PRODUCT
and sum SALES. -/
def sales_annual (year : Val → Val) (df : DataFrame) : DataFrame :=
  groupbyKeysSum (yearAssigned year df) ["YEAR", "PRODUCT"] "SALES"

/-- Line 209: the histogram is drawn from sales_data as it stands after the
annual stage has assigned the YEAR column in place. -/
def histogram_input (year : Val → Val) (df : DataFrame) : DataFrame :=
  yearAssigned year df

/-- get_secrets (lines 7 to 12): st.secrets.get returns the section or an
empty dictionary; st.error is shown exactly when the result is empty, and the
(possibly empty) configuration is returned either way.  The second component
records whether the error was surfaced. -/
def get_secrets (secrets : List (String × String)) :
    List (String × String) × Bool :=
  (secrets, secrets.isEmpty)

/-- Dictionary lookup config[k]: KeyError when the key is absent. -/
def configLookup (cfg : List (String × String)) (k : String) :
    Except PipelineError String :=
  match cfg.find? (fun kv => decide (kv.1 = k)) with
  | some kv => Except.ok kv.2
  | none => Except.error (PipelineError.keyNotInIndex [k])

/-- get_engine (lines 15 to 23): none when the configuration is empty,
otherwise the connection url built from the six configuration keys, raising a
KeyError when one of them is absent. -/
def get_engine (secrets : List (String × String)) :
    Except PipelineError (Option String) :=
  if secrets.isEmpty then Except.ok none
  else do
    let user ← configLookup secrets "user"
    let password ← configLookup secrets "password"
    let account ← configLookup secrets "account"
    let database ← configLookup secrets "database"
    let schema ← configLookup secrets "schema"
    let warehouse ← configLookup secrets "warehouse"
    Except.ok (some s!"snowflake://{user}:{password}@{account}/{database}/{schema}?warehouse={warehouse}")

/-- load_data (lines 26 to 33): an empty frame when no engine is available,
otherwise the query result with column names upper cased. -/
def load_data (secrets : List (String × String)) (queryResult : DataFrame) :
    Except PipelineError DataFrame := do
  let engine ← get_engine secrets
  match engine with
  | none => Except.ok DataFrame.emptyFrame
  | some _ =>
    Except.ok { cols := queryResult.cols.map String.toUpper, rows := queryResult.rows }

/-- Line 74: the options of the product selectbox, computed from the daily
table only, as its columns minus YEAR, MONTH, HOUR, WEEKDAY_NAME and DATUM. -/
def productOptions (sales_daily : DataFrame) : List String :=
  indexDifference sales_daily.cols ["YEAR", "MONTH", "HOUR", "WEEKDAY_NAME", "DATUM"]

/-- Streamlit selectbox: the selected option, which defaults to the first one,
or none when the option list is empty (as it is when the daily table came back
empty).  The model fixes the default selection; no property below depends on
which present option is chosen. -/
def selectbox (options : List String) : Option String := options.head?

/-- Sidebar product description text (lines 84 to 93), abridged to its first
entry: only its being a string matters to the highlight step. -/
def product_info : String :=
  "**M01AB** - Anti-inflammatory and antirheumatic products"

/-- Line 95: product_info.replace(product, highlighted markup).  The
str.replace method requires a string pattern and raises a TypeError when the
product selectbox returned None because its option list was empty. -/
def highlighted_product_info (info : String) (product : Option String) :
    Except PipelineError String :=
  match product with
  | none => Except.error PipelineError.typeErrorNotStr
  | some p =>
    Except.ok (info.replace p ("<span style=\"color:red\">" ++ p ++ "</span>"))

/-- The six configuration keys the engine url interpolates (lines 19 to 22). -/
def requiredKeys : List String :=
  ["user", "password", "account", "database", "schema", "warehouse"]

/-- Dashboard script from the table loads through the reshape stage (lines 51
to 125), in source order: load the four tables, build the product options from
the daily table and read the product selectbox (lines 72 to 75), highlight the
selected product inside the sidebar text (line 95), then melt the table of the
selected option branch (lines 106 to 125).  The option parameter is the value
of the granularity selectbox, whose option list is a fixed nonempty tuple and
therefore never yields none. -/
def dashboardScript (secrets : List (String × String))
    (rawDaily rawHourly rawMonthly rawWeekly : DataFrame) (option : String) :
    Except PipelineError DataFrame := do
  let sales_daily ← load_data secrets rawDaily
  let sales_hourly ← load_data secrets rawHourly
  let sales_monthly ← load_data secrets rawMonthly
  let sales_weekly ← load_data secrets rawWeekly
  let product := selectbox (productOptions sales_daily)
  let _ ← highlighted_product_info product_info product
  let t : LoadedTables := ⟨sales_daily, sales_hourly, sales_weekly, sales_monthly⟩
  melt_data (selectedTable t option) (id_vars option)
    (value_vars (selectedTable t option).cols)

/-- Time aggregation level offered by the selectbox (line 78). -/
inductive Granularity where
  | Daily
  | Hourly
  | Weekly
  | Monthly
deriving DecidableEq

/-- Selectbox label of each granularity. -/
def Granularity.label : Granularity → String
  | Daily => "Daily"
  | Hourly => "Hourly"
  | Weekly => "Weekly"
  | Monthly => "Monthly"

/-- Value column set described by the specification for one granularity, for
comparison with the computed value_vars.  Modelled from the spec wording: the
columns minus the metadata columns and minus the identifier columns of the
granularity. -/
def claimedValueVars (option : String) (cols : List String) : List String :=
  indexDifference cols (metadataCols ++ id_vars option)

/-- Wide table used as concrete input for the record count claim. -/
def wideC1 : DataFrame :=
  ⟨["DATUM", "M01AB"], [[Val.str "2020-01-01", Val.num 5]]⟩

/-- Wide table with a numeric date key, used for the losslessness claim. -/
def wideC2 : DataFrame := ⟨["DATUM", "M01AB"], [[Val.num 1, Val.num 5]]⟩

/-- Wide table with two rows and two product columns, the end to end example
of the specification. -/
def wideOk : DataFrame :=
  ⟨["DATUM", "M01AB", "M01AE"],
    [[Val.str "2020-01-01", Val.num 5, Val.num 2],
     [Val.str "2020-01-02", Val.num 3, Val.num 4]]⟩

/-- Table lacking the HOUR column. -/
def hourlessTable : DataFrame := ⟨["DATUM"], []⟩

/-- Daily table carrying the YEAR metadata column. -/
def tableWithYear : DataFrame :=
  ⟨["DATUM", "YEAR", "M01AB"], [[Val.str "d1", Val.num 2014, Val.num 5]]⟩

/-- Loaded tables whose daily table carries the YEAR metadata column. -/
def tablesWithYear : LoadedTables :=
  ⟨tableWithYear, DataFrame.emptyFrame, DataFrame.emptyFrame, DataFrame.emptyFrame⟩

/-- Long records with a repeated product code, the aggregation example of the
specification. -/
def recordsC8 : DataFrame :=
  ⟨["PRODUCT", "SALES"], [[Val.str "M01AB", Val.num 5], [Val.str "M01AB", Val.num 3]]⟩

/-- Long table used as concrete input for the frame effect claim. -/
def longC9 : DataFrame :=
  ⟨["DATUM", "PRODUCT", "SALES"], [[Val.str "2019-01-03", Val.str "M01AB", Val.num 5]]⟩

/-- Concrete year extraction used as input for the frame effect claim. -/
def yearFn : Val → Val := fun _ => Val.num 2019

/-! Helper lemmas about the embedded operations. -/

theorem mem_insertSorted {a b : String} {l : List String} :
    b ∈ insertSorted a l ↔ b = a ∨ b ∈ l := by
  induction l with
  | nil => simp [insertSorted]
  | cons c t ih =>
    by_cases h : stringLe a c = true
    · simp [insertSorted, h]
    · simp only [insertSorted, if_neg h, List.mem_cons, ih]
      tauto

theorem mem_sortStrings {b : String} {l : List String} :
    b ∈ sortStrings l ↔ b ∈ l := by
  induction l with
  | nil => simp [sortStrings]
  | cons c t ih => simp [sortStrings, mem_insertSorted, ih]

theorem mem_indexDifference {c : String} {cols other : List String} :
    c ∈ indexDifference cols other ↔ c ∈ cols ∧ c ∉ other := by
  simp [indexDifference, mem_sortStrings, List.mem_dedup, List.mem_filter]

theorem mem_dedupFirstAux {α : Type} [DecidableEq α] {seen l : List α} {a : α} :
    a ∈ dedupFirstAux seen l ↔ a ∈ l ∧ a ∉ seen := by
  induction l generalizing seen with
  | nil => simp [dedupFirstAux]
  | cons b t ih =>
    by_cases hb : b ∈ seen
    · rw [dedupFirstAux, if_pos hb, ih]
      simp only [List.mem_cons]
      constructor
      · rintro ⟨h1, h2⟩
        exact ⟨Or.inr h1, h2⟩
      · rintro ⟨h1 | h1, h2⟩
        · exact absurd (h1 ▸ hb) h2
        · exact ⟨h1, h2⟩
    · rw [dedupFirstAux, if_neg hb]
      simp only [List.mem_cons, ih, List.mem_cons, not_or]
      constructor
      · rintro (rfl | ⟨h1, h2, h3⟩)
        · exact ⟨Or.inl rfl, hb⟩
        · exact ⟨Or.inr h1, h3⟩
      · rintro ⟨h1, h2⟩
        rcases h1 with rfl | h1
        · exact Or.inl rfl
        · by_cases hab : a = b
          · exact Or.inl hab
          · exact Or.inr ⟨h1, hab, h2⟩

theorem nodup_dedupFirstAux {α : Type} [DecidableEq α] (seen l : List α) :
    (dedupFirstAux seen l).Nodup := by
  induction l generalizing seen with
  | nil => simp [dedupFirstAux]
  | cons b t ih =>
    by_cases hb : b ∈ seen
    · rw [dedupFirstAux, if_pos hb]
      exact ih seen
    · rw [dedupFirstAux, if_neg hb]
      refine List.nodup_cons.mpr ⟨?_, ih (b :: seen)⟩
      intro hmem
      exact (mem_dedupFirstAux.mp hmem).2 (List.mem_cons_self b seen)

theorem mem_dedupFirst {α : Type} [DecidableEq α] {l : List α} {a : α} :
    a ∈ dedupFirst l ↔ a ∈ l := by
  rw [dedupFirst, mem_dedupFirstAux]
  simp

theorem dedupFirstAux_eq_self {α : Type} [DecidableEq α] {seen l : List α}
    (hl : l.Nodup) (h : ∀ a ∈ l, a ∉ seen) : dedupFirstAux seen l = l := by
  induction l generalizing seen with
  | nil => rfl
  | cons b t ih =>
    rw [List.nodup_cons] at hl
    rw [dedupFirstAux, if_neg (h b (List.mem_cons_self b t))]
    congr 1
    refine ih hl.2 (fun a ha => ?_)
    simp only [List.mem_cons, not_or]
    exact ⟨fun he => hl.1 (he ▸ ha), h a (List.mem_cons_of_mem b ha)⟩

theorem dedupFirstAux_append_filter {α : Type} [DecidableEq α] (Iall : List α)
    {seen I V : List α} (hV : V.Nodup) (hVI : ∀ v ∈ V, v ∉ Iall)
    (hVs : ∀ v ∈ V, v ∉ seen) (hII : ∀ a ∈ I, a ∈ Iall)
    (hres : ∀ x ∈ Iall, x ∉ I → x ∈ seen) :
    (dedupFirstAux seen (I ++ V)).filter (fun c => decide (c ∉ Iall)) = V := by
  induction I generalizing seen with
  | nil =>
    rw [List.nil_append, dedupFirstAux_eq_self hV hVs]
    exact List.filter_eq_self.mpr (fun v hv => decide_eq_true (hVI v hv))
  | cons a I ih =>
    rw [List.cons_append]
    by_cases ha : a ∈ seen
    · rw [dedupFirstAux, if_pos ha]
      refine ih hVs (fun b hb => hII b (List.mem_cons_of_mem a hb)) (fun x hx hnx => ?_)
      by_cases hxa : x = a
      · exact hxa ▸ ha
      · exact hres x hx (by simp [List.mem_cons, hxa, hnx])
    · rw [dedupFirstAux, if_neg ha, List.filter_cons, if_neg (by simp [hII a (List.mem_cons_self a I)])]
      refine ih (fun v hv => ?_) (fun b hb => hII b (List.mem_cons_of_mem a hb)) (fun x hx hnx => ?_)
      · simp only [List.mem_cons, not_or]
        exact ⟨fun he => hVI v hv (he ▸ hII a (List.mem_cons_self a I)), hVs v hv⟩
      · by_cases hxa : x = a
        · exact hxa ▸ List.mem_cons_self a seen
        · exact List.mem_cons_of_mem a (hres x hx (by simp [List.mem_cons, hxa, hnx]))

theorem effectiveValueVars_eq {I V : List String} (hV : V.Nodup)
    (hdisj : ∀ v ∈ V, v ∉ I) : effectiveValueVars I V = V := by
  rw [effectiveValueVars, dedupFirst]
  exact dedupFirstAux_append_filter I hV hdisj (by simp) (fun a ha => ha)
    (fun x hx hnx => absurd hx hnx)

theorem indexOf_append_of_mem {α : Type} [BEq α] [LawfulBEq α] {a : α}
    {l₁ : List α} (l₂ : List α) (h : a ∈ l₁) :
    List.indexOf a (l₁ ++ l₂) = List.indexOf a l₁ := by
  induction l₁ with
  | nil => cases h
  | cons b t ih =>
    rw [List.cons_append, List.indexOf_cons, List.indexOf_cons]
    cases hba : b == a with
    | true => rfl
    | false =>
      have ht : a ∈ t := by
        rcases List.mem_cons.mp h with rfl | ht
        · simp at hba
        · exact ht
      simp only [cond_false]
      rw [ih ht]

theorem indexOf_append_of_not_mem {α : Type} [BEq α] [LawfulBEq α] {a : α}
    {l₁ : List α} (l₂ : List α) (h : a ∉ l₁) :
    List.indexOf a (l₁ ++ l₂) = l₁.length + List.indexOf a l₂ := by
  induction l₁ with
  | nil => simp
  | cons b t ih =>
    have hba : (b == a) = false := by
      simp only [List.mem_cons, not_or] at h
      exact beq_eq_false_iff_ne.mpr (fun he => h.1 he.symm)
    rw [List.cons_append, List.indexOf_cons, hba, cond_false,
      ih (fun ht => h (List.mem_cons_of_mem b ht)), List.length_cons]
    omega

theorem indexOf_lt_length_of_mem {α : Type} [BEq α] [LawfulBEq α] {a : α}
    {l : List α} (h : a ∈ l) : List.indexOf a l < l.length := by
  induction l with
  | nil => cases h
  | cons b t ih =>
    rw [List.indexOf_cons]
    cases hba : b == a with
    | true => simp
    | false =>
      have ht : a ∈ t := by
        rcases List.mem_cons.mp h with rfl | ht
        · simp at hba
        · exact ht
      rw [cond_false, List.length_cons]
      exact Nat.succ_lt_succ (ih ht)

theorem getCell_append_left {cols₁ cols₂ : List String} {r₁ r₂ : List Val}
    {c : String} (hc : c ∈ cols₁) (hlen : r₁.length = cols₁.length) :
    getCell (cols₁ ++ cols₂) (r₁ ++ r₂) c = getCell cols₁ r₁ c := by
  unfold getCell
  rw [indexOf_append_of_mem cols₂ hc]
  exact List.getD_append r₁ r₂ default _ (by rw [hlen]; exact indexOf_lt_length_of_mem hc)

theorem getCell_append_right {cols₁ cols₂ : List String} {r₁ r₂ : List Val}
    {c : String} (hc : c ∉ cols₁) (hlen : r₁.length = cols₁.length) :
    getCell (cols₁ ++ cols₂) (r₁ ++ r₂) c = getCell cols₂ r₂ c := by
  unfold getCell
  rw [indexOf_append_of_not_mem cols₂ hc, ← hlen,
    List.getD_append_right r₁ r₂ default _ (Nat.le_add_right _ _)]
  congr 1
  omega

theorem getCell_map_self (f : String → Val) {I : List String} {i : String}
    (h : i ∈ I) : getCell I (I.map f) i = f i := by
  induction I with
  | nil => cases h
  | cons a t ih =>
    unfold getCell
    rw [List.map_cons, List.indexOf_cons]
    by_cases hai : a = i
    · subst hai
      rw [beq_self_eq_true, cond_true, List.getD_cons_zero]
    · have ht : i ∈ t := by
        rcases List.mem_cons.mp h with rfl | ht
        · exact absurd rfl hai
        · exact ht
      rw [beq_eq_false_iff_ne.mpr hai, cond_false, List.getD_cons_succ]
      have := ih ht
      unfold getCell at this
      exact this

theorem keyOfRow_melted (cols I : List String) (r : List Val) (tail : List Val) :
    keyOfRow (I ++ ["PRODUCT", "SALES"]) I (I.map (getCell cols r) ++ tail) =
      keyOfRow cols I r := by
  unfold keyOfRow
  refine List.map_congr_left (fun i hi => ?_)
  rw [getCell_append_left hi (List.length_map _ _)]
  exact getCell_map_self (getCell cols r) hi

theorem getCell_melted_sales {I : List String} {ids : List Val} (pv sv : Val)
    (hlen : ids.length = I.length) (hS : "SALES" ∉ I) :
    getCell (I ++ ["PRODUCT", "SALES"]) (ids ++ [pv, sv]) "SALES" = sv := by
  rw [getCell_append_right hS hlen]
  rfl

theorem filter_flatten_eq {α : Type} (p : α → Bool) (L : List (List α)) :
    L.flatten.filter p = (L.map (List.filter p)).flatten := by
  induction L with
  | nil => rfl
  | cons l ls ih => simp [List.flatten_cons, List.filter_append, ih]

theorem filter_key_singleton {α β : Type} [DecidableEq β] (f : α → β)
    {l : List α} (hl : (l.map f).Nodup) {a : α} (ha : a ∈ l) :
    l.filter (fun x => decide (f x = f a)) = [a] := by
  induction l with
  | nil => cases ha
  | cons b t ih =>
    rw [List.map_cons, List.nodup_cons] at hl
    rcases List.mem_cons.mp ha with rfl | hat
    · rw [List.filter_cons, if_pos (by simp)]
      have hnil : t.filter (fun x => decide (f x = f a)) = [] := by
        refine List.filter_eq_nil_iff.mpr (fun x hx => ?_)
        simp only [decide_eq_true_eq]
        exact fun he => hl.1 (he ▸ List.mem_map_of_mem f hx)
      rw [hnil]
    · rw [List.filter_cons, if_neg ?_, ih hl.2 hat]
      simp only [decide_eq_true_eq]
      exact fun he => hl.1 (by rw [he]; exact List.mem_map_of_mem f hat)

theorem exists_ok_map {ε α β : Type} (f : α → β) (e : Except ε α) :
    (∃ b, e.map f = Except.ok b) ↔ ∃ a, e = Except.ok a := by
  cases e <;> simp [Except.map]

theorem melt_data_ok (W : DataFrame) (I V : List String)
    (hIsub : ∀ i ∈ I, i ∈ W.cols) (hVnd : V.Nodup)
    (hdisj : ∀ v ∈ V, v ∉ I) (hVsub : ∀ v ∈ V, v ∈ W.cols)
    (hsales : "SALES" ∉ W.cols) :
    melt_data W I V = Except.ok
      { cols := I ++ ["PRODUCT", "SALES"]
        rows := (V.map (fun v => W.rows.map (fun r =>
                  I.map (getCell W.cols r) ++ [Val.str v, getCell W.cols r v]))).flatten } := by
  have hid : I.filter (fun v => decide (v ∉ W.cols)) = [] :=
    List.filter_eq_nil_iff.mpr (fun i hi => by simp [hIsub i hi])
  have hval : V.filter (fun v => decide (v ∉ W.cols)) = [] :=
    List.filter_eq_nil_iff.mpr (fun v hv => by simp [hVsub v hv])
  unfold melt_data pandasMelt
  simp only [hid, hval, if_pos rfl, if_neg hsales, if_true,
    effectiveValueVars_eq hVnd hdisj]

theorem sum_map_const_nat {α : Type} (l : List α) (n : Nat) :
    (l.map (fun _ => n)).sum = l.length * n := by
  induction l with
  | nil => simp
  | cons a t ih => simp [ih, Nat.succ_mul, Nat.add_comm]

theorem id_vars_cases (option : String) :
    id_vars option = ["DATUM"] ∨ id_vars option = ["DATUM", "HOUR"] := by
  unfold id_vars
  split
  · exact Or.inl rfl
  split
  · exact Or.inr rfl
  split
  · exact Or.inl rfl
  · exact Or.inl rfl

theorem selectedTable_const (e : DataFrame) (option : String) :
    selectedTable ⟨e, e, e, e⟩ option = e := by
  unfold selectedTable
  split
  · rfl
  split
  · rfl
  split
  · rfl
  · rfl

theorem count_map_pair_head (keys : List Val) (g : Val → Val) (p : Val) :
    ((keys.map (fun k => [k, g k])).map (fun q => q.getD 0 default)).count p =
      keys.count p := by
  induction keys with
  | nil => rfl
  | cons k t ih =>
    simp only [List.map_cons, List.getD_cons_zero, List.count_cons, ih]

/-- C7: the granularity to identifier columns mapping is total over the four
variants and is exactly: Hourly to DATUM and HOUR, while Daily, Weekly and
Monthly map to DATUM alone; HOUR is an identifier column exactly for Hourly. -/
theorem granularity_id_vars :
    ∀ g : Granularity,
      (id_vars g.label = if g = Granularity.Hourly then ["DATUM", "HOUR"] else ["DATUM"]) ∧
      ("HOUR" ∈ id_vars g.label ↔ g = Granularity.Hourly) := by
  intro g
  cases g <;> exact ⟨by decide, by decide⟩

/-- C4: when some id_vars name is absent from the table, melt_data fails with
a KeyError whose payload is exactly the set of missing identifier columns,
whatever the value columns are, and it returns no table: the check runs before
the transform is attempted. -/
theorem melt_missing_id_vars_error (df : DataFrame) (I V : List String)
    (h : ∃ v ∈ I, v ∉ df.cols) :
    ∃ missing, melt_data df I V = Except.error (PipelineError.missingIdVars missing) ∧
      missing ≠ [] ∧ (∀ v, v ∈ missing ↔ (v ∈ I ∧ v ∉ df.cols)) := by
  obtain ⟨v0, hv0I, hv0c⟩ := h
  have hne : I.filter (fun v => decide (v ∉ df.cols)) ≠ [] :=
    List.ne_nil_of_mem (List.mem_filter.mpr ⟨hv0I, decide_eq_true hv0c⟩)
  refine ⟨_, ?_, hne, ?_⟩
  · simp only [melt_data]
    rw [if_neg hne]
  · intro v
    rw [List.mem_filter, decide_eq_true_eq]

/-- Witness for the C4 theorem at a concrete input: the table lacking HOUR. -/
theorem melt_missing_id_vars_error_witness :
    ("HOUR" ∈ (["DATUM", "HOUR"] : List String) ∧ "HOUR" ∉ hourlessTable.cols) ∧
    ∃ missing, melt_data hourlessTable ["DATUM", "HOUR"] [] =
        Except.error (PipelineError.missingIdVars missing) ∧
      missing ≠ [] ∧
      (∀ v, v ∈ missing ↔ (v ∈ (["DATUM", "HOUR"] : List String) ∧ v ∉ hourlessTable.cols)) :=
  ⟨⟨by decide, by decide⟩,
    melt_missing_id_vars_error hourlessTable ["DATUM", "HOUR"] []
      ⟨"HOUR", by decide, by decide⟩⟩

/-- C3 counterexample: the value column list the code passes to the reshaper
keeps DATUM, which is an identifier column, so the passed set is not the
claimed one that also subtracts the identifier columns. -/
theorem value_vars_counterexample :
    "DATUM" ∈ value_vars ["DATUM", "M01AB", "YEAR"] ∧
    "DATUM" ∈ id_vars "Daily" ∧
    "DATUM" ∉ claimedValueVars "Daily" ["DATUM", "M01AB", "YEAR"] :=
  ⟨by decide, by decide, by decide⟩

/-- C3 (amended): for every granularity the value column list passed to the
reshaper is exactly the table columns minus YEAR, MONTH, HOUR and WEEKDAY_NAME,
with identifier columns not subtracted; the reshaper itself however never
melts an identifier column, since no id_vars name is among the effective value
columns of the melt. -/
theorem value_vars_membership (cols : List String) (c : String) (option : String)
    (Vv : List String) (h : c ∈ id_vars option) :
    (c ∈ value_vars cols ↔ (c ∈ cols ∧ c ∉ metadataCols)) ∧
    c ∉ effectiveValueVars (id_vars option) Vv := by
  constructor
  · exact mem_indexDifference
  · intro hmem
    have hdec := (List.mem_filter.mp hmem).2
    rw [decide_eq_true_eq] at hdec
    exact hdec h

/-- Witness for the C3 theorem at a concrete input: DATUM over the daily
branch. -/
theorem value_vars_membership_witness :
    ("DATUM" ∈ id_vars "Daily") ∧
    (("DATUM" ∈ value_vars ["DATUM", "M01AB", "YEAR"] ↔
        ("DATUM" ∈ (["DATUM", "M01AB", "YEAR"] : List String) ∧ "DATUM" ∉ metadataCols)) ∧
      "DATUM" ∉ effectiveValueVars (id_vars "Daily") ["DATUM", "M01AB"]) :=
  ⟨by decide,
    value_vars_membership ["DATUM", "M01AB", "YEAR"] "DATUM" "Daily" ["DATUM", "M01AB"]
      (by decide)⟩

/-- Bind of a successful Except computation. -/
theorem ebind_ok {e a b : Type} (x : a) (f : a → Except e b) :
    (Except.ok x : Except e a) >>= f = f x := rfl

/-- Bind of a failed Except computation propagates the error. -/
theorem ebind_error {e a b : Type} (err : e) (f : a → Except e b) :
    (Except.error err : Except e a) >>= f = Except.error err := rfl

theorem configLookup_cases (cfg : List (String × String)) (k : String) :
    (configLookup cfg k = Except.error (PipelineError.keyNotInIndex [k]) ∧
      k ∉ cfg.map Prod.fst) ∨
    (∃ v, configLookup cfg k = Except.ok v ∧ k ∈ cfg.map Prod.fst) := by
  rcases hf : cfg.find? (fun kv => decide (kv.1 = k)) with _ | kv
  · refine Or.inl ⟨by simp [configLookup, hf], fun hmem => ?_⟩
    obtain ⟨kv, hkv, hfst⟩ := List.mem_map.mp hmem
    have := List.find?_eq_none.mp hf kv hkv
    simp [hfst] at this
  · refine Or.inr ⟨kv.2, by simp [configLookup, hf], ?_⟩
    have h1 : kv.1 = k := by
      have := List.find?_some hf
      simpa using this
    exact List.mem_map.mpr ⟨kv, List.mem_of_find?_eq_some hf, h1⟩

theorem get_engine_missing (cfg : List (String × String)) (hne : cfg ≠ [])
    (hmiss : ∃ k ∈ requiredKeys, k ∉ cfg.map Prod.fst) :
    ∃ k, get_engine cfg = Except.error (PipelineError.keyNotInIndex [k]) ∧
      k ∉ cfg.map Prod.fst := by
  have hie : ¬ (cfg.isEmpty = true) := fun hc => hne (List.isEmpty_iff.mp hc)
  unfold get_engine
  rw [if_neg hie]
  rcases configLookup_cases cfg "user" with ⟨h1, hn1⟩ | ⟨v1, h1, hm1⟩
  · exact ⟨"user", by simp only [h1, ebind_error], hn1⟩
  simp only [h1, ebind_ok]
  rcases configLookup_cases cfg "password" with ⟨h2, hn2⟩ | ⟨v2, h2, hm2⟩
  · exact ⟨"password", by simp only [h2, ebind_error], hn2⟩
  simp only [h2, ebind_ok]
  rcases configLookup_cases cfg "account" with ⟨h3, hn3⟩ | ⟨v3, h3, hm3⟩
  · exact ⟨"account", by simp only [h3, ebind_error], hn3⟩
  simp only [h3, ebind_ok]
  rcases configLookup_cases cfg "database" with ⟨h4, hn4⟩ | ⟨v4, h4, hm4⟩
  · exact ⟨"database", by simp only [h4, ebind_error], hn4⟩
  simp only [h4, ebind_ok]
  rcases configLookup_cases cfg "schema" with ⟨h5, hn5⟩ | ⟨v5, h5, hm5⟩
  · exact ⟨"schema", by simp only [h5, ebind_error], hn5⟩
  simp only [h5, ebind_ok]
  rcases configLookup_cases cfg "warehouse" with ⟨h6, hn6⟩ | ⟨v6, h6, hm6⟩
  · exact ⟨"warehouse", by simp only [h6, ebind_error], hn6⟩
  exfalso
  obtain ⟨k, hk, hknot⟩ := hmiss
  have hcases : k = "user" ∨ k = "password" ∨ k = "account" ∨ k = "database" ∨
      k = "schema" ∨ k = "warehouse" := by simpa [requiredKeys] using hk
  rcases hcases with rfl | rfl | rfl | rfl | rfl | rfl
  · exact hknot hm1
  · exact hknot hm2
  · exact hknot hm3
  · exact hknot hm4
  · exact hknot hm5
  · exact hknot hm6

/-- C5: when the configuration object is absent, the error is surfaced via
st.error and the script aborts before any downstream stage: the loads come
back empty, the daily table yields an empty product option list, the selectbox
returns none, and line 95 raises a TypeError on the None pattern, so neither
the reshape nor the aggregation nor any chart rendering runs and no table or
chart is produced.  When the configuration is present but incomplete, the
engine url construction raises a KeyError for a missing key during the very
first load, and that exception likewise aborts the pipeline with no downstream
stage running. -/
theorem config_missing_aborts (rawDaily rawHourly rawMonthly rawWeekly : DataFrame)
    (option : String) (cfg : List (String × String)) (hne : cfg ≠ [])
    (hmiss : ∃ k ∈ requiredKeys, k ∉ cfg.map Prod.fst) :
    ((get_secrets []).2 = true ∧
     dashboardScript [] rawDaily rawHourly rawMonthly rawWeekly option =
       Except.error PipelineError.typeErrorNotStr) ∧
    ∃ k, dashboardScript cfg rawDaily rawHourly rawMonthly rawWeekly option =
        Except.error (PipelineError.keyNotInIndex [k]) ∧ k ∉ cfg.map Prod.fst := by
  obtain ⟨k, hke, hkn⟩ := get_engine_missing cfg hne hmiss
  refine ⟨⟨rfl, rfl⟩, ⟨k, ?_, hkn⟩⟩
  unfold dashboardScript load_data
  simp only [hke, ebind_error]

/-- Witness for the C5 theorem: the absent configuration and a configuration
holding only the user key. -/
theorem config_missing_aborts_witness :
    (([("user", "u")] : List (String × String)) ≠ [] ∧
     ∃ k ∈ requiredKeys, k ∉ ([("user", "u")] : List (String × String)).map Prod.fst) ∧
    (((get_secrets []).2 = true ∧
      dashboardScript [] DataFrame.emptyFrame DataFrame.emptyFrame DataFrame.emptyFrame
          DataFrame.emptyFrame "Daily" = Except.error PipelineError.typeErrorNotStr) ∧
     ∃ k, dashboardScript [("user", "u")] DataFrame.emptyFrame DataFrame.emptyFrame
          DataFrame.emptyFrame DataFrame.emptyFrame "Daily" =
        Except.error (PipelineError.keyNotInIndex [k]) ∧
        k ∉ ([("user", "u")] : List (String × String)).map Prod.fst) :=
  ⟨⟨by decide, ⟨"password", by decide, by decide⟩⟩,
    config_missing_aborts DataFrame.emptyFrame DataFrame.emptyFrame DataFrame.emptyFrame
      DataFrame.emptyFrame "Daily" [("user", "u")] (by decide)
      ⟨"password", by decide, by decide⟩⟩

/-- C6 counterexample: YEAR is a present metadata column of the daily table
and not one of its value columns, yet the single product filter succeeds on it
and returns it renamed to SALES instead of failing. -/
theorem filter_product_counterexample :
    "YEAR" ∉ productOptions tableWithYear ∧
    "YEAR" ∈ tableWithYear.cols ∧
    filtered_data tablesWithYear "Daily" "YEAR" =
      Except.ok ⟨["DATUM", "SALES"], [[Val.str "d1", Val.num 2014]]⟩ :=
  ⟨by decide, by decide, by rfl⟩

/-- C6 (amended): the single product filter fails exactly on product names
that are not columns of the selected table at all: for such p the projection
fails with a KeyError naming p, and no result is returned. -/
theorem filter_product_unknown_column (t : LoadedTables) (option p : String)
    (hp : p ∉ (selectedTable t option).cols) :
    ∃ missing, filtered_data t option p =
        Except.error (PipelineError.keyNotInIndex missing) ∧ p ∈ missing := by
  have hmem : p ∈ (id_vars option ++ [p]).filter
      (fun c => decide (c ∉ (selectedTable t option).cols)) :=
    List.mem_filter.mpr
      ⟨List.mem_append_right _ (List.mem_singleton_self p), decide_eq_true hp⟩
  refine ⟨_, ?_, hmem⟩
  unfold filtered_data
  simp only [selectColumns]
  rw [if_neg (List.ne_nil_of_mem hmem)]
  rfl

/-- Witness for the C6 theorem at a concrete input: an unknown product code
against the daily table. -/
theorem filter_product_unknown_column_witness :
    ("ZZZZ" ∉ (selectedTable tablesWithYear "Daily").cols) ∧
    ∃ missing, filtered_data tablesWithYear "Daily" "ZZZZ" =
        Except.error (PipelineError.keyNotInIndex missing) ∧ "ZZZZ" ∈ missing :=
  ⟨by decide, filter_product_unknown_column tablesWithYear "Daily" "ZZZZ" (by decide)⟩

/-- C9: computing the annual aggregate mutates the long table in place by
appending a YEAR column derived from DATUM; the histogram stage afterwards
receives exactly that mutated table, whose record count and previously present
columns are unchanged. -/
theorem annual_frame_effect (year : Val → Val) (df : DataFrame)
    (hY : "YEAR" ∉ df.cols) (hwf : DataFrame.Wf df) :
    histogram_input year df = yearAssigned year df ∧
    (yearAssigned year df).cols = df.cols ++ ["YEAR"] ∧
    (yearAssigned year df).rows =
      df.rows.map (fun r => r ++ [year (getCell df.cols r "DATUM")]) ∧
    (yearAssigned year df).rows.length = df.rows.length ∧
    ∀ r ∈ df.rows, ∀ c ∈ df.cols,
      getCell (df.cols ++ ["YEAR"]) (r ++ [year (getCell df.cols r "DATUM")]) c =
        getCell df.cols r c := by
  have hun : yearAssigned year df =
      { cols := df.cols ++ ["YEAR"]
        rows := df.rows.map (fun r => r ++ [year (getCell df.cols r "DATUM")]) } := by
    unfold yearAssigned assignColumn
    rw [if_neg hY]
  refine ⟨rfl, by rw [hun], by rw [hun], by rw [hun]; exact List.length_map _ _, ?_⟩
  intro r hr c hc
  exact getCell_append_left hc (hwf r hr)

/-- Witness for the C9 theorem at a concrete long table and year function. -/
theorem annual_frame_effect_witness :
    ("YEAR" ∉ longC9.cols ∧ DataFrame.Wf longC9) ∧
    (histogram_input yearFn longC9 = yearAssigned yearFn longC9 ∧
     (yearAssigned yearFn longC9).cols = longC9.cols ++ ["YEAR"] ∧
     (yearAssigned yearFn longC9).rows =
       longC9.rows.map (fun r => r ++ [yearFn (getCell longC9.cols r "DATUM")]) ∧
     (yearAssigned yearFn longC9).rows.length = longC9.rows.length ∧
     ∀ r ∈ longC9.rows, ∀ c ∈ longC9.cols,
       getCell (longC9.cols ++ ["YEAR"]) (r ++ [yearFn (getCell longC9.cols r "DATUM")]) c =
         getCell longC9.cols r c) :=
  ⟨⟨by decide, by decide⟩, annual_frame_effect yearFn longC9 (by decide) (by decide)⟩

/-- C10: the product selectbox options are validated against the daily table
columns only (its columns minus the five known metadata and identifier names),
while the single product filter projects whichever granularity table was
selected; that projection succeeds exactly when the identifier columns and the
chosen product all exist in the selected table, so the unchecked precondition
for totality is that the product column also exists there. -/
theorem product_validation_scope (t : LoadedTables) (option p : String) :
    (∀ c, c ∈ productOptions t.sales_daily ↔
      (c ∈ t.sales_daily.cols ∧ c ∉ ["YEAR", "MONTH", "HOUR", "WEEKDAY_NAME", "DATUM"])) ∧
    ((∃ out, filtered_data t option p = Except.ok out) ↔
      ∀ c ∈ id_vars option ++ [p], c ∈ (selectedTable t option).cols) := by
  constructor
  · intro c
    exact mem_indexDifference
  · unfold filtered_data
    rw [exists_ok_map]
    constructor
    · rintro ⟨out, hout⟩ c hc
      by_contra hcc
      have hmem : c ∈ (id_vars option ++ [p]).filter
          (fun c => decide (c ∉ (selectedTable t option).cols)) :=
        List.mem_filter.mpr ⟨hc, decide_eq_true hcc⟩
      simp only [selectColumns] at hout
      rw [if_neg (List.ne_nil_of_mem hmem)] at hout
      exact Except.noConfusion hout
    · intro hall
      have hnil : (id_vars option ++ [p]).filter
          (fun c => decide (c ∉ (selectedTable t option).cols)) = [] :=
        List.filter_eq_nil_iff.mpr (fun c hc => by simp [hall c hc])
      refine ⟨{ cols := id_vars option ++ [p],
                rows := (selectedTable t option).rows.map
                  (fun r => (id_vars option ++ [p]).map (getCell (selectedTable t option).cols r)) }, ?_⟩
      simp only [selectColumns, hnil]
      exact if_pos trivial

/-- C1 counterexample: with id_vars DATUM and a value list that also names
DATUM, exactly the shape the dashboard passes since value_vars keeps DATUM,
pandas melt uses the overlapping column as identifier only and yields one
record, not rows times two. -/
theorem melt_count_counterexample :
    (∀ i ∈ (["DATUM"] : List String), i ∈ wideC1.cols) ∧
    melt_data wideC1 ["DATUM"] ["DATUM", "M01AB"] =
      Except.ok ⟨["DATUM", "PRODUCT", "SALES"],
        [[Val.str "2020-01-01", Val.str "M01AB", Val.num 5]]⟩ ∧
    ([[Val.str "2020-01-01", Val.str "M01AB", Val.num 5]] : List (List Val)).length ≠
      wideC1.rows.length * (["DATUM", "M01AB"] : List String).length :=
  ⟨by decide, by rfl, by decide⟩

/-- C1 (amended): for identifier columns I (distinct names, all columns of W)
and value columns V (distinct names, all columns of W, disjoint from I), on a
table without a SALES column, melt_data returns a long table with exactly
rows(W) times the length of V records. -/
theorem melt_record_count (W : DataFrame) (I V : List String)
    (_hInd : I.Nodup) (hIsub : ∀ i ∈ I, i ∈ W.cols)
    (hVnd : V.Nodup) (hVsub : ∀ v ∈ V, v ∈ W.cols)
    (hdisj : ∀ v ∈ V, v ∉ I) (hsales : "SALES" ∉ W.cols) :
    ∃ L, melt_data W I V = Except.ok L ∧
      L.rows.length = W.rows.length * V.length := by
  refine ⟨_, melt_data_ok W I V hIsub hVnd hdisj hVsub hsales, ?_⟩
  show (List.map _ V).flatten.length = _
  rw [List.length_flatten, List.map_map]
  simp only [Function.comp_def, List.length_map]
  rw [sum_map_const_nat, Nat.mul_comm]

/-- Witness for the C1 theorem at the two row, two product wide table of the
specification example. -/
theorem melt_record_count_witness :
    ((["DATUM"] : List String).Nodup ∧ (∀ i ∈ (["DATUM"] : List String), i ∈ wideOk.cols) ∧
     (["M01AB", "M01AE"] : List String).Nodup ∧
     (∀ v ∈ (["M01AB", "M01AE"] : List String), v ∈ wideOk.cols) ∧
     (∀ v ∈ (["M01AB", "M01AE"] : List String), v ∉ (["DATUM"] : List String)) ∧
     "SALES" ∉ wideOk.cols) ∧
    ∃ L, melt_data wideOk ["DATUM"] ["M01AB", "M01AE"] = Except.ok L ∧
      L.rows.length = wideOk.rows.length * (["M01AB", "M01AE"] : List String).length :=
  ⟨⟨by decide, by decide, by decide, by decide, by decide, by decide⟩,
    melt_record_count wideOk ["DATUM"] ["M01AB", "M01AE"] (by decide) (by decide)
      (by decide) (by decide) (by decide) (by decide)⟩

/-- C2 counterexample: on a wide table with a numeric DATUM key, id_vars DATUM
and the value list DATUM, M01AB (all numeric columns, distinct identifier
keys), the shape the dashboard passes since value_vars keeps DATUM, the
grouped SALES sum of the melted output is 5 while the sum of the value columns
of the wide row is 6: the overlapping column is not melted. -/
theorem melt_lossless_counterexample :
    melt_data wideC2 ["DATUM"] ["DATUM", "M01AB"] =
      Except.ok ⟨["DATUM", "PRODUCT", "SALES"],
        [[Val.num 1, Val.str "M01AB", Val.num 5]]⟩ ∧
    (∀ r ∈ wideC2.rows, ∀ v ∈ (["DATUM", "M01AB"] : List String),
      (getCell wideC2.cols r v).isNum = true) ∧
    (wideC2.rows.map (keyOfRow wideC2.cols ["DATUM"])).Nodup ∧
    groupSalesSum ⟨["DATUM", "PRODUCT", "SALES"], [[Val.num 1, Val.str "M01AB", Val.num 5]]⟩
        ["DATUM"] (keyOfRow wideC2.cols ["DATUM"] [Val.num 1, Val.num 5]) = 5 ∧
    rowValueSum wideC2.cols ["DATUM", "M01AB"] [Val.num 1, Val.num 5] = 6 ∧
    (5 : Int) ≠ 6 :=
  ⟨by rfl, by decide, by decide, by decide, by decide, by decide⟩

/-- C2 (amended): for identifier columns I (distinct names, all columns of W)
and value columns V (distinct names, all columns of W, disjoint from I,
numeric), on a table without a SALES column whose rows have distinct
identifier keys, grouping the melted output by identifier key and summing
SALES yields, for each wide row, exactly the sum of that row's listed value
columns. -/
theorem melt_lossless (W : DataFrame) (I V : List String)
    (_hInd : I.Nodup) (hIsub : ∀ i ∈ I, i ∈ W.cols)
    (hVnd : V.Nodup) (hVsub : ∀ v ∈ V, v ∈ W.cols)
    (hdisj : ∀ v ∈ V, v ∉ I) (hsales : "SALES" ∉ W.cols)
    (hkeys : (W.rows.map (keyOfRow W.cols I)).Nodup)
    (_hnum : ∀ r ∈ W.rows, ∀ v ∈ V, (getCell W.cols r v).isNum = true) :
    ∃ L, melt_data W I V = Except.ok L ∧
      ∀ r ∈ W.rows, groupSalesSum L I (keyOfRow W.cols I r) = rowValueSum W.cols V r := by
  refine ⟨_, melt_data_ok W I V hIsub hVnd hdisj hVsub hsales, ?_⟩
  intro r0 hr0
  have hSI : "SALES" ∉ I := fun hmem => hsales (hIsub _ hmem)
  unfold groupSalesSum rowValueSum
  show ((((List.map _ V).flatten).filter _).map _).sum = _
  have hblock : ∀ v : String,
      (W.rows.map (fun r =>
          I.map (getCell W.cols r) ++ [Val.str v, getCell W.cols r v])).filter
        (fun q => decide (keyOfRow (I ++ ["PRODUCT", "SALES"]) I q = keyOfRow W.cols I r0)) =
      [I.map (getCell W.cols r0) ++ [Val.str v, getCell W.cols r0 v]] := by
    intro v
    rw [List.filter_map]
    have hc : ∀ r ∈ W.rows,
        ((fun q => decide (keyOfRow (I ++ ["PRODUCT", "SALES"]) I q = keyOfRow W.cols I r0)) ∘
          (fun r => I.map (getCell W.cols r) ++ [Val.str v, getCell W.cols r v])) r =
        (fun r => decide (keyOfRow W.cols I r = keyOfRow W.cols I r0)) r := by
      intro r _
      simp only [Function.comp_apply]
      rw [keyOfRow_melted]
    rw [List.filter_congr hc, filter_key_singleton (keyOfRow W.cols I) hkeys hr0]
    rfl
  have hfilter :
      ((V.map (fun v => W.rows.map (fun r =>
          I.map (getCell W.cols r) ++ [Val.str v, getCell W.cols r v]))).flatten.filter
        (fun q => decide (keyOfRow (I ++ ["PRODUCT", "SALES"]) I q = keyOfRow W.cols I r0))) =
      (V.map (fun v =>
        [I.map (getCell W.cols r0) ++ [Val.str v, getCell W.cols r0 v]])).flatten := by
    rw [filter_flatten_eq, List.map_map]
    refine congrArg List.flatten (List.map_congr_left (fun v _ => ?_))
    simp only [Function.comp_apply]
    exact hblock v
  rw [hfilter, List.map_flatten, List.map_map, List.sum_flatten, List.map_map]
  refine congrArg List.sum (List.map_congr_left (fun v _ => ?_))
  simp only [Function.comp_apply, List.map_cons, List.map_nil, List.sum_cons, List.sum_nil,
    add_zero]
  rw [getCell_melted_sales (Val.str v) (getCell W.cols r0 v) (List.length_map I _) hSI]

/-- Witness for the C2 theorem at the two row, two product wide table of the
specification example. -/
theorem melt_lossless_witness :
    ((["DATUM"] : List String).Nodup ∧ (∀ i ∈ (["DATUM"] : List String), i ∈ wideOk.cols) ∧
     (["M01AB", "M01AE"] : List String).Nodup ∧
     (∀ v ∈ (["M01AB", "M01AE"] : List String), v ∈ wideOk.cols) ∧
     (∀ v ∈ (["M01AB", "M01AE"] : List String), v ∉ (["DATUM"] : List String)) ∧
     "SALES" ∉ wideOk.cols ∧
     (wideOk.rows.map (keyOfRow wideOk.cols ["DATUM"])).Nodup ∧
     (∀ r ∈ wideOk.rows, ∀ v ∈ (["M01AB", "M01AE"] : List String),
       (getCell wideOk.cols r v).isNum = true)) ∧
    ∃ L, melt_data wideOk ["DATUM"] ["M01AB", "M01AE"] = Except.ok L ∧
      ∀ r ∈ wideOk.rows,
        groupSalesSum L ["DATUM"] (keyOfRow wideOk.cols ["DATUM"] r) =
          rowValueSum wideOk.cols ["M01AB", "M01AE"] r :=
  ⟨⟨by decide, by decide, by decide, by decide, by decide, by decide, by decide, by decide⟩,
    melt_lossless wideOk ["DATUM"] ["M01AB", "M01AE"] (by decide) (by decide) (by decide)
      (by decide) (by decide) (by decide) (by decide) (by decide)⟩

/-- C8: aggregation by product over any list of long records is a grouping
sum: each product code of the records appears exactly once in the output, its
row carries the sum of all SALES values of that product, and in particular the
two record M01AB example collapses to the single entry M01AB, 8. -/
theorem aggregate_by_product (df : DataFrame)
    (_hP : "PRODUCT" ∈ df.cols) (_hS : "SALES" ∈ df.cols) :
    (∀ p : Val,
      ((sales_data_comparative df).rows.map (fun q => q.getD 0 default)).count p =
        if p ∈ df.rows.map (fun r => getCell df.cols r "PRODUCT") then 1 else 0) ∧
    (∀ q ∈ (sales_data_comparative df).rows,
      q = [q.getD 0 default, Val.num (productSalesSum df (q.getD 0 default))]) ∧
    sales_data_comparative recordsC8 =
      ⟨["PRODUCT", "SALES"], [[Val.str "M01AB", Val.num 8]]⟩ := by
  have hstruct : (sales_data_comparative df).rows =
      (dedupFirst (df.rows.map (fun r => getCell df.cols r "PRODUCT"))).map
        (fun k => [k, Val.num (productSalesSum df k)]) := rfl
  refine ⟨?_, ?_, by rfl⟩
  · intro p
    rw [hstruct, count_map_pair_head]
    by_cases hp : p ∈ df.rows.map (fun r => getCell df.cols r "PRODUCT")
    · rw [if_pos hp]
      exact List.count_eq_one_of_mem (nodup_dedupFirstAux [] _) (mem_dedupFirst.mpr hp)
    · rw [if_neg hp]
      exact List.count_eq_zero_of_not_mem (fun hmem => hp (mem_dedupFirst.mp hmem))
  · intro q hq
    rw [hstruct] at hq
    obtain ⟨k, _, rfl⟩ := List.mem_map.mp hq
    rfl

/-- Witness for the C8 theorem at the repeated product example of the
specification. -/
theorem aggregate_by_product_witness :
    ("PRODUCT" ∈ recordsC8.cols ∧ "SALES" ∈ recordsC8.cols) ∧
    ((∀ p : Val,
        ((sales_data_comparative recordsC8).rows.map (fun q => q.getD 0 default)).count p =
          if p ∈ recordsC8.rows.map (fun r => getCell recordsC8.cols r "PRODUCT") then 1 else 0) ∧
     (∀ q ∈ (sales_data_comparative recordsC8).rows,
        q = [q.getD 0 default, Val.num (productSalesSum recordsC8 (q.getD 0 default))]) ∧
     sales_data_comparative recordsC8 =
       ⟨["PRODUCT", "SALES"], [[Val.str "M01AB", Val.num 8]]⟩) :=
  ⟨⟨by decide, by decide⟩, aggregate_by_product recordsC8 (by decide) (by decide)⟩
